import Mathlib

/-!
Shallow embedding of the core of `smart-task-planner` (backend/app/main.py):
the model prober `break_down_goal`, the response interpreter
`_parse_ai_response` (including its JSON decoding step), the fallback
generator `_create_smart_tasks` and the timeframe heuristic
`_parse_timeframe`.

Python strings are modelled as `List Char` (ASCII-faithful: the inputs this
program manipulates are ASCII; `str.lower`, `str.isdigit`, `str.strip` and
`str.split` are embedded at the ASCII level).  Python `int` is `Nat`/`Int`
(all arithmetic in the source stays nonnegative except JSON-supplied
numbers, which are `Int`).  Raised exceptions are `Except PyErr`.
-/

set_option maxRecDepth 100000

namespace STP

/-- Characters treated as whitespace by Python's `str.strip`/`str.split`
(ASCII fragment). -/
def pyIsSpace (c : Char) : Bool :=
  c = ' ' || c = '\t' || c = '\n' || c = '\r' || c = Char.ofNat 11 || c = Char.ofNat 12

/-- `l.dropWhile pyIsSpace`: Python `str.lstrip()`. -/
def stripLeft (l : List Char) : List Char := l.dropWhile pyIsSpace

/-- Python `str.rstrip()`. -/
def stripRight (l : List Char) : List Char := (l.reverse.dropWhile pyIsSpace).reverse

/-- Python `str.strip()`. -/
def pyStrip (l : List Char) : List Char := stripRight (stripLeft l)

/-- Python `str.lower()` (ASCII). -/
def pyLower (l : List Char) : List Char := l.map Char.toLower

/-- Accumulator-based splitting on whitespace runs: Python `str.split()`
with no argument (empty tokens are never produced). -/
def pySplitAux : List Char → List Char → List (List Char)
  | [], acc => if acc.isEmpty then [] else [acc.reverse]
  | c :: cs, acc =>
    if pyIsSpace c then
      if acc.isEmpty then pySplitAux cs [] else acc.reverse :: pySplitAux cs []
    else pySplitAux cs (c :: acc)

/-- Python `str.split()`. -/
def pySplit (l : List Char) : List (List Char) := pySplitAux l []

/-- Python `str.isdigit()` on a token produced by `split` (ASCII): non-empty
and all characters are decimal digits. -/
def pyIsDigitTok (t : List Char) : Bool := !t.isEmpty && t.all Char.isDigit

/-- Python `int(s)` on a string of decimal digits. -/
def digitsToNat (t : List Char) : Nat := t.foldl (fun n c => 10 * n + (c.toNat - 48)) 0

/-- Python's substring test `pat in l` (the operand order follows the Python
operator: the pattern first). -/
def containsSub (pat : List Char) : List Char → Bool
  | [] => pat.isEmpty
  | c :: cs => pat.isPrefixOf (c :: cs) || containsSub pat cs

/-- The list comprehension `[int(s) for s in timeframe.split() if s.isdigit()]`
of `_parse_timeframe` (applied to the lowered text). -/
def tfNumbers (t : List Char) : List Nat := ((pySplit t).filter pyIsDigitTok).map digitsToNat

/-- `numbers[0] if numbers else 1` in `_parse_timeframe`. -/
def tfNumber (t : List Char) : Nat := (tfNumbers t).headD 1

/-- `AIService._parse_timeframe` (main.py lines 212-232).  `none` models the
Python argument `None`; `if not timeframe` is also true for the empty
string, hence the `isEmpty` test. -/
def parseTimeframe : Option (List Char) → Nat
  | none => 8
  | some tf =>
    if tf.isEmpty then 8
    else
      let t := pyLower tf
      let number := tfNumber t
      if containsSub ("minute".toList) t then max 1 (number / 60)
      else if containsSub ("hour".toList) t then number
      else if containsSub ("day".toList) t then number * 8
      else if containsSub ("week".toList) t then number * 40
      else if containsSub ("month".toList) t then number * 160
      else 8

/-- Characters that `json.loads` skips as inter-token whitespace. -/
def isJsonWs (c : Char) : Bool := c = ' ' || c = '\t' || c = '\n' || c = '\r'

/-- Named characters (kept out of literals for clarity). -/
def braceL : Char := Char.ofNat 123

def braceR : Char := Char.ofNat 125

def quoteC : Char := Char.ofNat 34

def backslashC : Char := Char.ofNat 92

def apostC : Char := Char.ofNat 39

def backtickC : Char := Char.ofNat 96

/-- The Python values `json.loads` can decode, as used by this program.
Numbers are modelled as integers: the program's schema (`estimated_hours`)
uses integer hours, and non-integer numerals play no role in any claim. -/
inductive Json where
  | jnull : Json
  | jbool : Bool → Json
  | jnum : Int → Json
  | jstr : List Char → Json
  | jarr : List Json → Json
  | jobj : List (List Char × Json) → Json

/-- Python `dict` lookup on the field list produced by decoding a JSON
object: with duplicate keys, `json.loads` keeps the last occurrence, so the
last binding wins. -/
def dictGet (fs : List (List Char × Json)) (k : List Char) : Option Json :=
  match fs with
  | [] => none
  | (k', v) :: rest =>
    match dictGet rest k with
    | some r => some r
    | none => if k' = k then some v else none

/-- Hex digit value, for `\u` escapes. -/
def hexVal (c : Char) : Option Nat :=
  if '0' ≤ c ∧ c ≤ '9' then some (c.toNat - 48)
  else if 'a' ≤ c ∧ c ≤ 'f' then some (c.toNat - 87)
  else if 'A' ≤ c ∧ c ≤ 'F' then some (c.toNat - 55)
  else none

/-- JSON string body scanner (input starts after the opening quote; returns
the decoded content and the input after the closing quote).  Fuel-indexed to
stay structurally recursive. -/
def scanStr : Nat → List Char → Option (List Char × List Char)
  | 0, _ => none
  | _ + 1, [] => none
  | fuel + 1, c :: cs =>
    if c = quoteC then some ([], cs)
    else if c = backslashC then
      match cs with
      | [] => none
      | e :: cs' =>
        if e = 'u' then
          match cs' with
          | h1 :: h2 :: h3 :: h4 :: cs'' =>
            match hexVal h1, hexVal h2, hexVal h3, hexVal h4 with
            | some d1, some d2, some d3, some d4 =>
              match scanStr fuel cs'' with
              | some (s, r) => some (Char.ofNat (4096 * d1 + 256 * d2 + 16 * d3 + d4) :: s, r)
              | none => none
            | _, _, _, _ => none
          | _ => none
        else
          let ch : Option Char :=
            if e = quoteC then some quoteC
            else if e = backslashC then some backslashC
            else if e = '/' then some '/'
            else if e = 'n' then some '\n'
            else if e = 't' then some '\t'
            else if e = 'r' then some '\r'
            else if e = 'b' then some (Char.ofNat 8)
            else if e = 'f' then some (Char.ofNat 12)
            else none
          match ch with
          | some ch' =>
            match scanStr fuel cs' with
            | some (s, r) => some (ch' :: s, r)
            | none => none
          | none => none
    else
      match scanStr fuel cs with
      | some (s, r) => some (c :: s, r)
      | none => none

/-- Longest digit run at the front. -/
def spanDigits (l : List Char) : List Char × List Char := l.span Char.isDigit

/-- JSON number token (integer numerals only; see `Json`). -/
def scanNum (l : List Char) : Option (Json × List Char) :=
  match l with
  | [] => none
  | c :: cs =>
    if c = '-' then
      match spanDigits cs with
      | ([], _) => none
      | (ds, r) => some (Json.jnum (-(digitsToNat ds : Int)), r)
    else
      match spanDigits l with
      | ([], _) => none
      | (ds, r) => some (Json.jnum (digitsToNat ds), r)

/-- Mode of the recursive-descent JSON reader: a whole value, the inside of
an object or array right after its opening bracket, or the member/element
list continuation. -/
inductive PMode where
  | val : PMode
  | obj : PMode
  | arr : PMode
  | members : PMode
  | elements : PMode

/-- Recursive-descent reader for the JSON fragment `json.loads` decodes
(member lists are returned as `Json.jobj`, element lists as `Json.jarr`).
Fuel-indexed so that the recursion is structural; `jsonLoads` supplies
ample fuel. -/
def parseCore : Nat → PMode → List Char → Option (Json × List Char)
  | 0, _, _ => none
  | fuel + 1, PMode.val, l =>
    let l1 := l.dropWhile isJsonWs
    match l1 with
    | [] => none
    | c :: cs =>
      if c = quoteC then
        match scanStr (cs.length + 1) cs with
        | some (s, r) => some (Json.jstr s, r)
        | none => none
      else if c = braceL then parseCore fuel PMode.obj cs
      else if c = '[' then parseCore fuel PMode.arr cs
      else if ("true".toList).isPrefixOf l1 then some (Json.jbool true, l1.drop 4)
      else if ("false".toList).isPrefixOf l1 then some (Json.jbool false, l1.drop 5)
      else if ("null".toList).isPrefixOf l1 then some (Json.jnull, l1.drop 4)
      else scanNum l1
  | fuel + 1, PMode.obj, l =>
    let l1 := l.dropWhile isJsonWs
    match l1 with
    | [] => none
    | c :: cs => if c = braceR then some (Json.jobj [], cs) else parseCore fuel PMode.members l1
  | fuel + 1, PMode.arr, l =>
    let l1 := l.dropWhile isJsonWs
    match l1 with
    | [] => none
    | c :: cs => if c = ']' then some (Json.jarr [], cs) else parseCore fuel PMode.elements l1
  | fuel + 1, PMode.members, l =>
    let l1 := l.dropWhile isJsonWs
    match l1 with
    | [] => none
    | c :: cs =>
      if c = quoteC then
        match scanStr (cs.length + 1) cs with
        | none => none
        | some (k, r1) =>
          match r1.dropWhile isJsonWs with
          | [] => none
          | c2 :: cs2 =>
            if c2 = ':' then
              match parseCore fuel PMode.val cs2 with
              | none => none
              | some (v, r3) =>
                match r3.dropWhile isJsonWs with
                | [] => none
                | c3 :: cs3 =>
                  if c3 = ',' then
                    match parseCore fuel PMode.members cs3 with
                    | some (Json.jobj fs, r5) => some (Json.jobj ((k, v) :: fs), r5)
                    | _ => none
                  else if c3 = braceR then some (Json.jobj [(k, v)], cs3)
                  else none
            else none
      else none
  | fuel + 1, PMode.elements, l =>
    match parseCore fuel PMode.val l with
    | none => none
    | some (v, r1) =>
      match r1.dropWhile isJsonWs with
      | [] => none
      | c :: cs =>
        if c = ',' then
          match parseCore fuel PMode.elements cs with
          | some (Json.jarr xs, r2) => some (Json.jarr (v :: xs), r2)
          | _ => none
        else if c = ']' then some (Json.jarr [v], cs)
        else none

/-- Exceptions the Python code can raise while interpreting a response.
`jsonDecodeError` stands for the `Exception("Failed to parse AI response as
JSON")` re-raised from `json.JSONDecodeError`; the others are the raw
exceptions that escape `_parse_ai_response`'s narrow `except` clause. -/
inductive PyErr where
  | jsonDecodeError : PyErr
  | keyError : List Char → PyErr
  | typeError : PyErr
  | attributeError : PyErr
deriving DecidableEq

/-- `json.loads` on the cleaned content: a whole JSON document with nothing
but whitespace after it. -/
def jsonLoads (l : List Char) : Except PyErr Json :=
  match parseCore (4 * l.length + 8) PMode.val l with
  | some (v, rest) =>
    if (rest.dropWhile isJsonWs).isEmpty then Except.ok v else Except.error PyErr.jsonDecodeError
  | none => Except.error PyErr.jsonDecodeError

/-- One entry of the `tasks` list that `_parse_ai_response` builds
(main.py lines 156-163).  The four schema fields are copied verbatim from
the decoded document, so they hold arbitrary `Json` values, exactly as the
Python dict does. -/
structure TaskDict where
  id : List Char
  title : Json
  description : Json
  estimated_hours : Json
  priority : Json
  status : List Char

/-- The dict returned by `_parse_ai_response` and `_create_smart_tasks`:
reasoning, tasks and total. -/
structure Breakdown where
  reasoning : Json
  tasks : List TaskDict
  total_estimated_hours : Int

/-- Python `str(n)` for a natural number (fuel-indexed digit peeling). -/
def natToDigits : Nat → Nat → List Char
  | 0, _ => []
  | fuel + 1, n =>
    if n < 10 then [Char.ofNat (48 + n)]
    else natToDigits fuel (n / 10) ++ [Char.ofNat (48 + n % 10)]

/-- Python `str(n)`. -/
def natToString (n : Nat) : List Char := natToDigits (n + 1) n

/-- One iteration of the task-building loop of `_parse_ai_response`
(lines 155-163): `task_data["title"]` etc. raise `KeyError` on a missing
key (in the dict literal's evaluation order) and `TypeError` when
`task_data` is not a dict; `i` is the `enumerate` index. -/
def taskFromData (i : Nat) (j : Json) : Except PyErr TaskDict :=
  match j with
  | Json.jobj fs =>
    match dictGet fs ("title".toList) with
    | none => Except.error (PyErr.keyError ("title".toList))
    | some title =>
      match dictGet fs ("description".toList) with
      | none => Except.error (PyErr.keyError ("description".toList))
      | some description =>
        match dictGet fs ("estimated_hours".toList) with
        | none => Except.error (PyErr.keyError ("estimated_hours".toList))
        | some eh =>
          match dictGet fs ("priority".toList) with
          | none => Except.error (PyErr.keyError ("priority".toList))
          | some priority =>
            Except.ok { id := natToString (i + 1), title := title,
                        description := description, estimated_hours := eh,
                        priority := priority, status := "pending".toList }
  | _ => Except.error PyErr.typeError

/-- The task-building loop over a decoded list, with the running
`enumerate` index. -/
def buildTasksFrom : Nat → List Json → Except PyErr (List TaskDict)
  | _, [] => Except.ok []
  | i, j :: js =>
    match taskFromData i j with
    | Except.error e => Except.error e
    | Except.ok t =>
      match buildTasksFrom (i + 1) js with
      | Except.error e => Except.error e
      | Except.ok ts => Except.ok (t :: ts)

/-- `for i, task_data in enumerate(data.get("tasks", []))` applied to the
value found under `"tasks"`.  Python iterates any iterable: a string yields
its characters and a dict its keys, and subscripting those with `"title"`
then raises `TypeError` — so non-list values succeed (with zero tasks) only
when they are empty, and fail otherwise; non-iterables raise `TypeError`
immediately. -/
def buildTasks : Json → Except PyErr (List TaskDict)
  | Json.jarr xs => buildTasksFrom 0 xs
  | Json.jstr s => if s.isEmpty then Except.ok [] else Except.error PyErr.typeError
  | Json.jobj fs => if fs.isEmpty then Except.ok [] else Except.error PyErr.typeError
  | _ => Except.error PyErr.typeError

/-- Python's `0 + x` steps inside `sum(...)`: numbers add, booleans count as
ints, anything else raises `TypeError`. -/
def pyNumVal : Json → Except PyErr Int
  | Json.jnum n => Except.ok n
  | Json.jbool b => Except.ok (if b then 1 else 0)
  | _ => Except.error PyErr.typeError

/-- `sum(task["estimated_hours"] for task in tasks)` (line 165). -/
def sumHours : List TaskDict → Except PyErr Int
  | [] => Except.ok 0
  | t :: ts =>
    match pyNumVal t.estimated_hours with
    | Except.error e => Except.error e
    | Except.ok h =>
      match sumHours ts with
      | Except.error e => Except.error e
      | Except.ok s => Except.ok (h + s)

/-- The body of `_parse_ai_response` after `json.loads` succeeded
(lines 153-171): build the task dicts, sum their hours, then look up
`data["reasoning"]` while assembling the result (the dict literal evaluates
it last of the fallible pieces).  A non-dict document raises
`AttributeError` at `data.get`. -/
def interpretDoc : Json → Except PyErr Breakdown
  | Json.jobj fs =>
    let tasksVal := (dictGet fs ("tasks".toList)).getD (Json.jarr [])
    match buildTasks tasksVal with
    | Except.error e => Except.error e
    | Except.ok tasks =>
      match sumHours tasks with
      | Except.error e => Except.error e
      | Except.ok total =>
        match dictGet fs ("reasoning".toList) with
        | none => Except.error (PyErr.keyError ("reasoning".toList))
        | some r => Except.ok { reasoning := r, tasks := tasks, total_estimated_hours := total }
  | _ => Except.error PyErr.attributeError

/-- The markdown-fence stripping of `_parse_ai_response` (lines 137-143):
drop a leading 7-character json-tagged fence, else a leading bare 3-character
fence; then drop a trailing 3-character fence from what remains. -/
def stripFence (l : List Char) : List Char :=
  let l1 :=
    if ("```json".toList).isPrefixOf l then l.drop 7
    else if ("```".toList).isPrefixOf l then l.drop 3
    else l
  if ("```".toList).isSuffixOf l1 then l1.take (l1.length - 3) else l1

/-- The full cleaning pipeline of `_parse_ai_response` (lines 134-145):
strip, de-fence, strip again. -/
def cleanContent (l : List Char) : List Char := pyStrip (stripFence (pyStrip l))

/-- `AIService._parse_ai_response` (lines 132-175).  The `goal` parameter is
present in the Python signature but unused by the function body. -/
def parseAiResponse (content : List Char) (goal : List Char) : Except PyErr Breakdown :=
  match jsonLoads (cleanContent content) with
  | Except.error e => Except.error e
  | Except.ok data => interpretDoc data

/-- `AIService._create_smart_tasks` (lines 177-210), the fallback
generator.  Note that the returned `total_estimated_hours` is the timeframe
budget itself, not the sum of the three task hours. -/
def createSmartTasks (goal : List Char) (timeframe : Option (List Char)) : Breakdown :=
  let totalHours := parseTimeframe timeframe
  { reasoning := Json.jstr ("Smart task breakdown for ".toList ++ [apostC] ++ goal ++
      [apostC] ++ " (Gemini API unavailable)".toList),
    tasks := [
      { id := "1".toList, title := Json.jstr ("Research and plan ".toList ++ goal),
        description := Json.jstr ("Initial research and planning phase".toList),
        estimated_hours := Json.jnum (max 1 (totalHours / 4) : Nat),
        priority := Json.jstr ("high".toList), status := "pending".toList },
      { id := "2".toList, title := Json.jstr ("Practice core skills for ".toList ++ goal),
        description := Json.jstr ("Hands-on practice and skill development".toList),
        estimated_hours := Json.jnum (max 1 (totalHours / 2) : Nat),
        priority := Json.jstr ("medium".toList), status := "pending".toList },
      { id := "3".toList, title := Json.jstr ("Apply and refine ".toList ++ goal),
        description := Json.jstr ("Practical application and improvement".toList),
        estimated_hours := Json.jnum (max 1 (totalHours / 4) : Nat),
        priority := Json.jstr ("medium".toList), status := "pending".toList }],
    total_estimated_hours := (totalHours : Int) }

/-- What one remote call of `_try_model` (lines 70-105) can come back with:
a transport-level failure (exception from `requests.post`, e.g. a timeout),
a non-200 status, a 200 reply without candidates, or a 200 reply whose
first candidate carries `text`. -/
inductive RemoteOutcome where
  | transportFailure : RemoteOutcome
  | httpError : Nat → RemoteOutcome
  | noCandidates : RemoteOutcome
  | contentText : List Char → RemoteOutcome

/-- `_try_model` as observed by the `break_down_goal` loop: every raised
exception (transport, non-200, missing candidates, or any failure inside
`_parse_ai_response`) is caught there, so the attempt yields `none`; a
successful parse yields the breakdown.  (`if result:` on the returned
3-key dict is always true.)  The remote service is abstracted as a function
from the model name to its outcome. -/
def tryModel (remote : List Char → RemoteOutcome) (modelName : List Char)
    (goal : List Char) : Option Breakdown :=
  match remote modelName with
  | RemoteOutcome.contentText text => (parseAiResponse text goal).toOption
  | _ => none

/-- The candidate list `self.possible_models` (lines 41-49). -/
def possibleModels : List (List Char) :=
  ["gemini-2.0-flash".toList, "gemini-2.0-flash-001".toList,
   "gemini-2.0-flash-lite".toList, "gemini-2.0-flash-lite-001".toList,
   "gemini-pro-latest".toList, "gemini-2.5-flash".toList, "gemini-2.5-pro".toList]

/-- The `for model_name in self.possible_models` loop of `break_down_goal`
(lines 53-68) over an explicit candidate list.  The first component is the
value the Python function returns; the second counts how many candidates
were attempted (each loop iteration performs exactly one attempt). -/
def probeList (remote : List Char → RemoteOutcome) (models : List (List Char))
    (goal : List Char) (timeframe : Option (List Char)) : Breakdown × Nat :=
  match models with
  | [] => (createSmartTasks goal timeframe, 0)
  | m :: rest =>
    match tryModel remote m goal with
    | some r => (r, 1)
    | none =>
      let p := probeList remote rest goal timeframe
      (p.1, p.2 + 1)

/-- `AIService.break_down_goal` (lines 53-68): the loop over
`possible_models`, falling back to `_create_smart_tasks` when every
candidate fails. -/
def breakDownGoal (remote : List Char → RemoteOutcome) (goal : List Char)
    (timeframe : Option (List Char)) : Breakdown × Nat :=
  probeList remote possibleModels goal timeframe

/-- The spec's fenced wrapping of a document: a leading language-tagged
fence line and a trailing fence line. -/
def wrapJson (d : List Char) : List Char := "```json\n".toList ++ (d ++ "\n```".toList)

/-- The spec's fenced wrapping with a bare (untagged) opening fence. -/
def wrapBare (d : List Char) : List Char := "```\n".toList ++ (d ++ "\n```".toList)

/-- A task entry of the decoded document that lacks one of the four
required fields (it is a dict, but one key is absent). -/
def lacksRequiredField (j : Json) : Prop :=
  ∃ tfs, j = Json.jobj tfs ∧
    (dictGet tfs ("title".toList) = none ∨ dictGet tfs ("description".toList) = none ∨
     dictGet tfs ("estimated_hours".toList) = none ∨ dictGet tfs ("priority".toList) = none)

/-- A well-formed model reply used as a concrete test document. -/
def sampleTaskDoc : List Char :=
  ("\x7b\"reasoning\": \"r\", \"tasks\": [\x7b\"title\": \"t\", \"description\": \"d\", " ++
   "\"estimated_hours\": 2, \"priority\": \"high\"\x7d]\x7d").toList

/-- The breakdown `_parse_ai_response` produces from `sampleTaskDoc`. -/
def sampleTaskBreakdown : Breakdown :=
  { reasoning := Json.jstr ("r".toList),
    tasks := [{ id := "1".toList, title := Json.jstr ("t".toList),
                description := Json.jstr ("d".toList), estimated_hours := Json.jnum 2,
                priority := Json.jstr ("high".toList), status := "pending".toList }],
    total_estimated_hours := 2 }

/-- A remote service where the first candidate model fails and the second
one answers with `sampleTaskDoc`. -/
def remoteSecondOk : List Char → RemoteOutcome := fun m =>
  if m = "gemini-2.0-flash-001".toList then RemoteOutcome.contentText sampleTaskDoc
  else RemoteOutcome.transportFailure

/-- A model reply like `sampleTaskDoc` but also carrying a (wrong) total
field, which the interpreter must ignore. -/
def suppliedTotalDoc : List Char :=
  ("\x7b\"reasoning\": \"r\", \"tasks\": [\x7b\"title\": \"t\", \"description\": \"d\", " ++
   "\"estimated_hours\": 2, \"priority\": \"high\"\x7d], \"total_estimated_hours\": 999\x7d").toList

/-- A model reply whose task carries the out-of-range priority "urgent". -/
def urgentDoc : List Char :=
  ("\x7b\"reasoning\": \"r\", \"tasks\": [\x7b\"title\": \"t\", \"description\": \"d\", " ++
   "\"estimated_hours\": 2, \"priority\": \"urgent\"\x7d]\x7d").toList

/-- A model reply whose task entry has no priority field. -/
def noPriorityDoc : List Char :=
  ("\x7b\"reasoning\": \"r\", \"tasks\": [\x7b\"title\": \"t\", \"description\": \"d\", " ++
   "\"estimated_hours\": 2\x7d]\x7d").toList

/-- The decoded task entry of `noPriorityDoc`. -/
def noPriorityEntry : Json :=
  Json.jobj [("title".toList, Json.jstr ("t".toList)),
             ("description".toList, Json.jstr ("d".toList)),
             ("estimated_hours".toList, Json.jnum 2)]

end STP

namespace STP

/-! ## Helper lemmas about the prober loop -/

theorem probeList_all_fail (remote : List Char → RemoteOutcome) (goal : List Char)
    (timeframe : Option (List Char)) :
    ∀ models : List (List Char), (∀ m ∈ models, tryModel remote m goal = none) →
      probeList remote models goal timeframe = (createSmartTasks goal timeframe, models.length)
  | [], _ => rfl
  | m :: rest, h => by
    have hm : tryModel remote m goal = none := h m (List.mem_cons_self m rest)
    have ih := probeList_all_fail remote goal timeframe rest
      (fun x hx => h x (List.mem_cons_of_mem m hx))
    simp [probeList, hm, ih]

theorem probeList_count_le (remote : List Char → RemoteOutcome) (goal : List Char)
    (timeframe : Option (List Char)) :
    ∀ models : List (List Char), (probeList remote models goal timeframe).2 ≤ models.length
  | [] => Nat.le_refl 0
  | m :: rest => by
    have ih := probeList_count_le remote goal timeframe rest
    cases htm : tryModel remote m goal with
    | some r => simp [probeList, htm]
    | none =>
      simp only [probeList, htm, List.length_cons]
      exact Nat.succ_le_succ ih

/-! ## Claims C1, C2, C4, C8, C10 -/

/-- Claim C1, counterexample: with timeframe "1 hour" the fallback's three
task hours sum to 3 while `total_estimated_hours` is the budget 1, so the
total does not equal the sum of the tasks' hours. -/
theorem synthesize_total_ne_sum_cx :
    (createSmartTasks ("g".toList) (some ("1 hour".toList))).total_estimated_hours = 1 ∧
    sumHours (createSmartTasks ("g".toList) (some ("1 hour".toList))).tasks = Except.ok 3 ∧
    (1 : Int) ≠ 3 :=
  ⟨rfl, rfl, by decide⟩

/-- Claim C1 (amended): for every goal and timeframe the fallback returns
exactly 3 tasks, each with `estimated_hours ≥ 1`, and its
`total_estimated_hours` is the timeframe-derived hours budget (which is
not always the sum of the three tasks' hours). -/
theorem synthesize_shape (goal : List Char) (timeframe : Option (List Char)) :
    (createSmartTasks goal timeframe).tasks.length = 3 ∧
    (∀ t ∈ (createSmartTasks goal timeframe).tasks,
      ∃ h : Nat, t.estimated_hours = Json.jnum (h : Int) ∧ 1 ≤ h) ∧
    (createSmartTasks goal timeframe).total_estimated_hours = (parseTimeframe timeframe : Int) := by
  refine ⟨rfl, ?_, rfl⟩
  intro t ht
  simp only [createSmartTasks, List.mem_cons, List.not_mem_nil, or_false] at ht
  rcases ht with rfl | rfl | rfl
  · exact ⟨max 1 (parseTimeframe timeframe / 4), rfl, le_max_left _ _⟩
  · exact ⟨max 1 (parseTimeframe timeframe / 2), rfl, le_max_left _ _⟩
  · exact ⟨max 1 (parseTimeframe timeframe / 4), rfl, le_max_left _ _⟩

/-- Claim C2: when every candidate model's attempt fails, `break_down_goal`
returns exactly the fallback generator's result for the same goal and
timeframe (a 3-task breakdown); no failure propagates. -/
theorem break_down_goal_total_failure_returns_fallback
    (remote : List Char → RemoteOutcome) (goal : List Char) (timeframe : Option (List Char))
    (h : ∀ m ∈ possibleModels, tryModel remote m goal = none) :
    (breakDownGoal remote goal timeframe).1 = createSmartTasks goal timeframe ∧
    ((breakDownGoal remote goal timeframe).1).tasks.length = 3 := by
  have hall := probeList_all_fail remote goal timeframe possibleModels h
  unfold breakDownGoal
  rw [hall]
  exact ⟨rfl, rfl⟩

/-- Claim C2, witness: a remote service failing on every model. -/
theorem break_down_goal_total_failure_returns_fallback_witness :
    (breakDownGoal (fun _ => RemoteOutcome.transportFailure) ("Learn Spanish".toList)
        (some ("2 weeks".toList))).1 =
      createSmartTasks ("Learn Spanish".toList) (some ("2 weeks".toList)) ∧
    ((breakDownGoal (fun _ => RemoteOutcome.transportFailure) ("Learn Spanish".toList)
        (some ("2 weeks".toList))).1).tasks.length = 3 :=
  break_down_goal_total_failure_returns_fallback _ _ _ (fun _ _ => rfl)

/-- Claim C4, counterexample: `_parse_timeframe` on "0 hours" returns 0,
which is not a positive integer. -/
theorem timeframe_zero_hours_cx :
    parseTimeframe (some ("0 hours".toList)) = 0 ∧
    ¬ 1 ≤ parseTimeframe (some ("0 hours".toList)) := by
  constructor
  · rfl
  · decide

/-- Claim C4 (amended): `_parse_timeframe` returns a positive integer for
absent and empty input and whenever the quantity it extracts (the first
all-digit whitespace token, or the default 1) is nonzero; with an extracted
quantity of 0 and a unit of hour/day/week/month the result is 0. -/
theorem timeframe_positive_of_nonzero_quantity (timeframe : Option (List Char))
    (h : ∀ t, timeframe = some t → 0 < tfNumber (pyLower t)) :
    1 ≤ parseTimeframe timeframe := by
  cases timeframe with
  | none => decide
  | some t =>
    have hn := h t rfl
    simp only [parseTimeframe]
    split_ifs
    · decide
    · exact le_max_left 1 _
    · exact hn
    · omega
    · omega
    · omega
    · decide

/-- Claim C4, witness: "2 weeks" extracts quantity 2 and yields 80 ≥ 1. -/
theorem timeframe_positive_witness : 1 ≤ parseTimeframe (some ("2 weeks".toList)) :=
  timeframe_positive_of_nonzero_quantity _ (fun t ht => by cases ht; decide)

/-- Claim C8: when the first candidate's attempt fails and the second
succeeds with result `r`, the prober loop returns `r` after exactly 2
attempts; and in general the number of attempts never exceeds the number of
candidates (each candidate is attempted at most once, none after the first
success). -/
theorem probe_first_success_second_candidate
    (remote : List Char → RemoteOutcome) (goal : List Char) (timeframe : Option (List Char))
    (m1 m2 : List Char) (rest : List (List Char)) (r : Breakdown)
    (h1 : tryModel remote m1 goal = none) (h2 : tryModel remote m2 goal = some r) :
    probeList remote (m1 :: m2 :: rest) goal timeframe = (r, 2) ∧
    ∀ models : List (List Char), (probeList remote models goal timeframe).2 ≤ models.length := by
  constructor
  · simp [probeList, h1, h2]
  · exact probeList_count_le remote goal timeframe

/-- Claim C8, witness: the concrete candidate list with the first model
failing and the second answering `sampleTaskDoc`. -/
theorem probe_first_success_second_candidate_witness :
    probeList remoteSecondOk ("gemini-2.0-flash".toList :: "gemini-2.0-flash-001".toList ::
        ["gemini-2.0-flash-lite".toList, "gemini-2.0-flash-lite-001".toList,
         "gemini-pro-latest".toList, "gemini-2.5-flash".toList, "gemini-2.5-pro".toList])
      ("g".toList) none = (sampleTaskBreakdown, 2) ∧
    (probeList remoteSecondOk possibleModels ("g".toList) none).2 ≤ possibleModels.length :=
  ⟨(probe_first_success_second_candidate remoteSecondOk ("g".toList) none
      ("gemini-2.0-flash".toList) ("gemini-2.0-flash-001".toList)
      ["gemini-2.0-flash-lite".toList, "gemini-2.0-flash-lite-001".toList,
       "gemini-pro-latest".toList, "gemini-2.5-flash".toList, "gemini-2.5-pro".toList]
      sampleTaskBreakdown rfl rfl).1,
   (probe_first_success_second_candidate remoteSecondOk ("g".toList) none
      ("gemini-2.0-flash".toList) ("gemini-2.0-flash-001".toList)
      ["gemini-2.0-flash-lite".toList, "gemini-2.0-flash-lite-001".toList,
       "gemini-pro-latest".toList, "gemini-2.5-flash".toList, "gemini-2.5-pro".toList]
      sampleTaskBreakdown rfl rfl).2 possibleModels⟩

/-- Claim C10: `break_down_goal` applies no validation to the goal: with
the empty string as goal and every candidate failing, it returns the normal
3-task fallback whose titles and reasoning embed the empty goal string. -/
theorem break_down_goal_accepts_empty_goal
    (remote : List Char → RemoteOutcome) (timeframe : Option (List Char))
    (h : ∀ m ∈ possibleModels, tryModel remote m [] = none) :
    (breakDownGoal remote [] timeframe).1 = createSmartTasks [] timeframe ∧
    (createSmartTasks [] timeframe).tasks.map TaskDict.title =
      [Json.jstr ("Research and plan ".toList), Json.jstr ("Practice core skills for ".toList),
       Json.jstr ("Apply and refine ".toList)] ∧
    (createSmartTasks [] timeframe).reasoning =
      Json.jstr ("Smart task breakdown for ".toList ++ [apostC] ++ [apostC] ++
        " (Gemini API unavailable)".toList) := by
  refine ⟨?_, ?_, ?_⟩
  · have hall := probeList_all_fail remote [] timeframe possibleModels h
    unfold breakDownGoal
    rw [hall]
  · simp [createSmartTasks]
  · simp [createSmartTasks]

/-- Claim C10, witness: the empty goal with an always-failing remote. -/
theorem break_down_goal_accepts_empty_goal_witness :
    (breakDownGoal (fun _ => RemoteOutcome.transportFailure) [] none).1 =
      createSmartTasks [] none ∧
    (createSmartTasks [] none).tasks.map TaskDict.title =
      [Json.jstr ("Research and plan ".toList), Json.jstr ("Practice core skills for ".toList),
       Json.jstr ("Apply and refine ".toList)] ∧
    (createSmartTasks [] none).reasoning =
      Json.jstr ("Smart task breakdown for ".toList ++ [apostC] ++ [apostC] ++
        " (Gemini API unavailable)".toList) :=
  break_down_goal_accepts_empty_goal _ _ (fun _ _ => rfl)

/-! ## Helper lemmas about the interpreter -/

theorem dictGet_cons_ne (k' k : List Char) (v : Json) (fs : List (List Char × Json))
    (h : k' ≠ k) : dictGet ((k', v) :: fs) k = dictGet fs k := by
  simp only [dictGet]
  cases dictGet fs k with
  | some r => rfl
  | none => simp [h]

theorem interpretDoc_total_eq_sum (d : Json) (b : Breakdown)
    (h : interpretDoc d = Except.ok b) :
    sumHours b.tasks = Except.ok b.total_estimated_hours := by
  cases d with
  | jnull => exact absurd h (by simp [interpretDoc])
  | jbool x => exact absurd h (by simp [interpretDoc])
  | jnum n => exact absurd h (by simp [interpretDoc])
  | jstr s => exact absurd h (by simp [interpretDoc])
  | jarr xs => exact absurd h (by simp [interpretDoc])
  | jobj fs =>
    simp only [interpretDoc] at h
    cases hB : buildTasks ((dictGet fs ("tasks".toList)).getD (Json.jarr [])) with
    | error e => rw [hB] at h; exact absurd h (by simp)
    | ok tasks =>
      rw [hB] at h
      dsimp only at h
      cases hS : sumHours tasks with
      | error e => rw [hS] at h; exact absurd h (by simp)
      | ok total =>
        rw [hS] at h
        dsimp only at h
        cases hR : dictGet fs ("reasoning".toList) with
        | none => rw [hR] at h; exact absurd h (by simp)
        | some r =>
          rw [hR] at h
          dsimp only at h
          cases h
          exact hS

theorem taskFromData_error_of_lacks (j : Json) (hj : lacksRequiredField j) (i : Nat) :
    ∃ e, taskFromData i j = Except.error e := by
  obtain ⟨tfs, rfl, hmiss⟩ := hj
  cases hT : dictGet tfs ("title".toList) with
  | none =>
    exact ⟨PyErr.keyError ("title".toList), by simp only [taskFromData]; rw [hT]⟩
  | some tt =>
    cases hD : dictGet tfs ("description".toList) with
    | none =>
      exact ⟨PyErr.keyError ("description".toList), by simp only [taskFromData]; rw [hT, hD]⟩
    | some dd =>
      cases hE : dictGet tfs ("estimated_hours".toList) with
      | none =>
        exact ⟨PyErr.keyError ("estimated_hours".toList),
          by simp only [taskFromData]; rw [hT, hD, hE]⟩
      | some ee =>
        cases hP : dictGet tfs ("priority".toList) with
        | none =>
          exact ⟨PyErr.keyError ("priority".toList),
            by simp only [taskFromData]; rw [hT, hD, hE, hP]⟩
        | some pp => rcases hmiss with h | h | h | h <;> simp_all

theorem buildTasksFrom_error_of_mem :
    ∀ (i : Nat) (xs : List Json), (∃ j ∈ xs, lacksRequiredField j) →
      ∃ e, buildTasksFrom i xs = Except.error e
  | _, [], h => absurd h (by simp)
  | i, x :: xs, h => by
    rcases h with ⟨j, hj, hlack⟩
    rcases List.mem_cons.mp hj with rfl | hmem
    · obtain ⟨e, he⟩ := taskFromData_error_of_lacks j hlack i
      exact ⟨e, by simp [buildTasksFrom, he]⟩
    · cases hx : taskFromData i x with
      | error e => exact ⟨e, by simp [buildTasksFrom, hx]⟩
      | ok t =>
        obtain ⟨e, he⟩ := buildTasksFrom_error_of_mem (i + 1) xs ⟨j, hmem, hlack⟩
        exact ⟨e, by simp [buildTasksFrom, hx, he]⟩

/-! ## Claims C3, C5, C6, C7 -/

/-- Claim C3, counterexample: the interpreter accepts a document whose
tasks array is empty and returns a breakdown with an empty tasks sequence,
so an accepted interpreter result need not contain at least one task. -/
theorem interpret_accepts_empty_tasks_cx :
    parseAiResponse ("\x7b\"reasoning\": \"r\", \"tasks\": []\x7d".toList) ("g".toList) =
      Except.ok { reasoning := Json.jstr ("r".toList), tasks := [],
                  total_estimated_hours := 0 } :=
  rfl

/-- Claim C3 (amended): the fallback always returns exactly 3 tasks, but an
interpreter result accepted from a document whose tasks array is empty has
an empty tasks sequence — the interpreter does not guarantee
non-emptiness. -/
theorem fallback_three_tasks_interpreter_may_be_empty
    (goal : List Char) (timeframe : Option (List Char))
    (fs : List (List Char × Json)) (r : Json)
    (hT : dictGet fs ("tasks".toList) = some (Json.jarr []))
    (hR : dictGet fs ("reasoning".toList) = some r) :
    (createSmartTasks goal timeframe).tasks.length = 3 ∧
    interpretDoc (Json.jobj fs) =
      Except.ok { reasoning := r, tasks := [], total_estimated_hours := 0 } := by
  refine ⟨rfl, ?_⟩
  simp only [interpretDoc]
  rw [hT]
  simp only [Option.getD_some, buildTasks, buildTasksFrom, sumHours]
  rw [hR]

/-- Claim C3, witness: a concrete empty-tasks document. -/
theorem fallback_three_tasks_interpreter_may_be_empty_witness :
    (createSmartTasks ("g".toList) none).tasks.length = 3 ∧
    interpretDoc (Json.jobj [("reasoning".toList, Json.jstr ("r".toList)),
        ("tasks".toList, Json.jarr [])]) =
      Except.ok { reasoning := Json.jstr ("r".toList), tasks := [],
                  total_estimated_hours := 0 } :=
  fallback_three_tasks_interpreter_may_be_empty _ _ _ _ rfl rfl

/-- Claim C5, counterexample: a task with priority "urgent" is accepted and
returned with that priority unchanged, which is outside
\x7bhigh, medium, low\x7d; so interpreter results do not keep priority in that
set. -/
theorem interpret_priority_cx :
    parseAiResponse urgentDoc ("g".toList) =
      Except.ok { reasoning := Json.jstr ("r".toList),
                  tasks := [{ id := "1".toList, title := Json.jstr ("t".toList),
                              description := Json.jstr ("d".toList),
                              estimated_hours := Json.jnum 2,
                              priority := Json.jstr ("urgent".toList),
                              status := "pending".toList }],
                  total_estimated_hours := 2 } ∧
    ("urgent".toList ≠ "high".toList ∧ "urgent".toList ≠ "medium".toList ∧
     "urgent".toList ≠ "low".toList) :=
  ⟨rfl, by decide⟩

/-- Claim C5 (amended): the interpreter copies each task's priority field
verbatim without restricting it to high/medium/low, and a task entry with
no priority field (the other three fields present) makes the task builder
fail with a KeyError instead of defaulting to "medium". -/
theorem interpret_priority_verbatim_no_default (i : Nat) (fs : List (List Char × Json)) :
    (∀ t, taskFromData i (Json.jobj fs) = Except.ok t →
      dictGet fs ("priority".toList) = some t.priority) ∧
    (∀ tt dd ee, dictGet fs ("title".toList) = some tt →
      dictGet fs ("description".toList) = some dd →
      dictGet fs ("estimated_hours".toList) = some ee →
      dictGet fs ("priority".toList) = none →
      taskFromData i (Json.jobj fs) = Except.error (PyErr.keyError ("priority".toList))) := by
  constructor
  · intro t h
    simp only [taskFromData] at h
    cases hT : dictGet fs ("title".toList) with
    | none => rw [hT] at h; exact absurd h (by simp)
    | some tt =>
      rw [hT] at h
      dsimp only at h
      cases hD : dictGet fs ("description".toList) with
      | none => rw [hD] at h; exact absurd h (by simp)
      | some dd =>
        rw [hD] at h
        dsimp only at h
        cases hE : dictGet fs ("estimated_hours".toList) with
        | none => rw [hE] at h; exact absurd h (by simp)
        | some ee =>
          rw [hE] at h
          dsimp only at h
          cases hP : dictGet fs ("priority".toList) with
          | none => rw [hP] at h; exact absurd h (by simp)
          | some pp =>
            rw [hP] at h
            dsimp only at h
            cases h
            rfl
  · intro tt dd ee h1 h2 h3 h4
    simp only [taskFromData]
    rw [h1, h2, h3, h4]

/-- Claim C5, witness: the priority "urgent" is looked up verbatim, and the
same task entry without a priority key fails with KeyError. -/
theorem interpret_priority_verbatim_no_default_witness :
    dictGet [("title".toList, Json.jstr ("t".toList)),
             ("description".toList, Json.jstr ("d".toList)),
             ("estimated_hours".toList, Json.jnum 2),
             ("priority".toList, Json.jstr ("urgent".toList))] ("priority".toList) =
      some (Json.jstr ("urgent".toList)) ∧
    taskFromData 0 (Json.jobj [("title".toList, Json.jstr ("t".toList)),
        ("description".toList, Json.jstr ("d".toList)),
        ("estimated_hours".toList, Json.jnum 2)]) =
      Except.error (PyErr.keyError ("priority".toList)) :=
  ⟨(interpret_priority_verbatim_no_default 0 _).1
      { id := "1".toList, title := Json.jstr ("t".toList),
        description := Json.jstr ("d".toList), estimated_hours := Json.jnum 2,
        priority := Json.jstr ("urgent".toList), status := "pending".toList } rfl,
   (interpret_priority_verbatim_no_default 0 _).2 (Json.jstr ("t".toList))
      (Json.jstr ("d".toList)) (Json.jnum 2) rfl rfl rfl rfl⟩

/-- Claim C6: an accepted interpreter result's `total_estimated_hours`
equals the sum of the hours of the tasks it assembled, and a total field
supplied by the document is ignored (adding one changes nothing). -/
theorem interpret_total_is_sum (s goal : List Char) (b : Breakdown)
    (h : parseAiResponse s goal = Except.ok b) :
    sumHours b.tasks = Except.ok b.total_estimated_hours ∧
    ∀ (v : Json) (fs : List (List Char × Json)),
      interpretDoc (Json.jobj (("total_estimated_hours".toList, v) :: fs)) =
        interpretDoc (Json.jobj fs) := by
  constructor
  · simp only [parseAiResponse] at h
    cases hJ : jsonLoads (cleanContent s) with
    | error e => rw [hJ] at h; exact absurd h (by simp)
    | ok data =>
      rw [hJ] at h
      dsimp only at h
      exact interpretDoc_total_eq_sum data b h
  · intro v fs
    simp only [interpretDoc]
    rw [dictGet_cons_ne ("total_estimated_hours".toList) ("tasks".toList) v fs (by decide),
        dictGet_cons_ne ("total_estimated_hours".toList) ("reasoning".toList) v fs (by decide)]

/-- Claim C6, witness: a document carrying the bogus total 999 yields a
breakdown whose total is the computed sum 2, and prepending a supplied
total to a document's fields changes nothing. -/
theorem interpret_total_is_sum_witness :
    sumHours sampleTaskBreakdown.tasks = Except.ok sampleTaskBreakdown.total_estimated_hours ∧
    interpretDoc (Json.jobj [("total_estimated_hours".toList, Json.jnum 999)]) =
      interpretDoc (Json.jobj []) :=
  ⟨(interpret_total_is_sum suppliedTotalDoc ("g".toList) sampleTaskBreakdown rfl).1,
   (interpret_total_is_sum suppliedTotalDoc ("g".toList) sampleTaskBreakdown rfl).2
      (Json.jnum 999) []⟩

/-- Claim C7: the interpreter fails, producing no breakdown, when the
cleaned text is not well-formed JSON, when the decoded document has no
reasoning field, and when some task entry lacks one of title, description,
estimated_hours or priority. -/
theorem interpret_failure_conditions :
    (∀ s goal e, jsonLoads (cleanContent s) = Except.error e →
      parseAiResponse s goal = Except.error e) ∧
    (∀ s goal fs, jsonLoads (cleanContent s) = Except.ok (Json.jobj fs) →
      dictGet fs ("reasoning".toList) = none →
      ∃ e, parseAiResponse s goal = Except.error e) ∧
    (∀ s goal fs xs, jsonLoads (cleanContent s) = Except.ok (Json.jobj fs) →
      dictGet fs ("tasks".toList) = some (Json.jarr xs) →
      (∃ j ∈ xs, lacksRequiredField j) →
      ∃ e, parseAiResponse s goal = Except.error e) := by
  refine ⟨?_, ?_, ?_⟩
  · intro s goal e h
    simp only [parseAiResponse]
    rw [h]
  · intro s goal fs hJ hR
    simp only [parseAiResponse]
    rw [hJ]
    dsimp only
    cases hB : buildTasks ((dictGet fs ("tasks".toList)).getD (Json.jarr [])) with
    | error e => exact ⟨e, by simp only [interpretDoc]; rw [hB]⟩
    | ok tasks =>
      cases hS : sumHours tasks with
      | error e => exact ⟨e, by simp only [interpretDoc]; rw [hB]; dsimp only; rw [hS]⟩
      | ok total =>
        exact ⟨PyErr.keyError ("reasoning".toList),
          by simp only [interpretDoc]; rw [hB]; dsimp only; rw [hS]; dsimp only; rw [hR]⟩
  · intro s goal fs xs hJ hT hbad
    obtain ⟨e, he⟩ := buildTasksFrom_error_of_mem 0 xs hbad
    refine ⟨e, ?_⟩
    simp only [parseAiResponse]
    rw [hJ]
    dsimp only
    simp only [interpretDoc]
    rw [hT]
    simp only [Option.getD_some, buildTasks]
    rw [he]

/-- Claim C7, witness: concrete failing inputs — non-JSON text, a document
without reasoning, and a document whose task entry lacks priority. -/
theorem interpret_failure_conditions_witness :
    parseAiResponse ("not json".toList) ("g".toList) = Except.error PyErr.jsonDecodeError ∧
    (∃ e, parseAiResponse ("\x7b\"tasks\": []\x7d".toList) ("g".toList) = Except.error e) ∧
    (∃ e, parseAiResponse noPriorityDoc ("g".toList) = Except.error e) :=
  ⟨interpret_failure_conditions.1 ("not json".toList) ("g".toList) PyErr.jsonDecodeError rfl,
   interpret_failure_conditions.2.1 ("\x7b\"tasks\": []\x7d".toList) ("g".toList)
     [("tasks".toList, Json.jarr [])] rfl rfl,
   interpret_failure_conditions.2.2 noPriorityDoc ("g".toList)
     [("reasoning".toList, Json.jstr ("r".toList)), ("tasks".toList, Json.jarr [noPriorityEntry])]
     [noPriorityEntry] rfl rfl
     ⟨noPriorityEntry, List.Mem.head _,
      [("title".toList, Json.jstr ("t".toList)), ("description".toList, Json.jstr ("d".toList)),
       ("estimated_hours".toList, Json.jnum 2)], rfl, Or.inr (Or.inr (Or.inr rfl))⟩⟩

/-! ## Helper lemmas about stripping and fences -/

theorem stripLeft_cons_ws (c : Char) (l : List Char) (h : pyIsSpace c = true) :
    stripLeft (c :: l) = stripLeft l := by
  simp [stripLeft, List.dropWhile_cons, h]

theorem stripLeft_cons_nws (c : Char) (l : List Char) (h : pyIsSpace c = false) :
    stripLeft (c :: l) = c :: l := by
  simp [stripLeft, List.dropWhile_cons, h]

theorem stripRight_append_nws (c : Char) (l : List Char) (h : pyIsSpace c = false) :
    stripRight (l ++ [c]) = l ++ [c] := by
  simp [stripRight, List.dropWhile_cons, h]

theorem stripRight_append_ws (c : Char) (l : List Char) (h : pyIsSpace c = true) :
    stripRight (l ++ [c]) = stripRight l := by
  simp [stripRight, List.dropWhile_cons, h]

theorem stripRight_cons_nws (c : Char) (l : List Char) (h : pyIsSpace c = false) :
    stripRight (c :: l) = c :: stripRight l := by
  unfold stripRight
  rw [List.reverse_cons, List.dropWhile_append]
  by_cases hE : (List.dropWhile pyIsSpace l.reverse).isEmpty
  · rw [if_pos hE]
    rw [List.isEmpty_iff.mp hE]
    simp [List.dropWhile_cons, h]
  · rw [if_neg hE]
    rw [List.reverse_append]
    rfl

theorem stripRight_idem (l : List Char) : stripRight (stripRight l) = stripRight l := by
  simp [stripRight, List.reverse_reverse, List.dropWhile_idempotent]

theorem pyStrip_cons_ws (c : Char) (l : List Char) (h : pyIsSpace c = true) :
    pyStrip (c :: l) = pyStrip l := by
  unfold pyStrip
  rw [stripLeft_cons_ws c l h]

theorem pyStrip_append_ws (c : Char) (l : List Char) (h : pyIsSpace c = true) :
    pyStrip (l ++ [c]) = pyStrip l := by
  unfold pyStrip stripLeft
  rw [List.dropWhile_append]
  by_cases hE : (List.dropWhile pyIsSpace l).isEmpty
  · rw [if_pos hE]
    rw [List.isEmpty_iff.mp hE]
    simp [List.dropWhile_cons, h]
  · rw [if_neg hE]
    exact stripRight_append_ws c _ h

theorem pyStrip_idem : ∀ l : List Char, pyStrip (pyStrip l) = pyStrip l
  | [] => rfl
  | c :: l => by
    cases hc : pyIsSpace c with
    | true =>
      rw [pyStrip_cons_ws c l hc]
      exact pyStrip_idem l
    | false =>
      have h1 : pyStrip (c :: l) = c :: stripRight l := by
        unfold pyStrip
        rw [stripLeft_cons_nws c l hc]
        exact stripRight_cons_nws c l hc
      have h2 : pyStrip (c :: stripRight l) = c :: stripRight (stripRight l) := by
        unfold pyStrip
        rw [stripLeft_cons_nws c _ hc]
        exact stripRight_cons_nws c _ hc
      rw [h1, h2, stripRight_idem]

theorem wrapJson_split (d : List Char) :
    wrapJson d = ("```json\n".toList ++ (d ++ "\n``".toList)) ++ "`".toList := by
  simp [wrapJson, List.append_assoc]

theorem wrapBare_split (d : List Char) :
    wrapBare d = ("```\n".toList ++ (d ++ "\n``".toList)) ++ "`".toList := by
  simp [wrapBare, List.append_assoc]

theorem pyStrip_wrapJson (d : List Char) : pyStrip (wrapJson d) = wrapJson d := by
  have h1 : stripLeft (wrapJson d) = wrapJson d := by
    have hw : wrapJson d = backtickC :: ("``json\n".toList ++ (d ++ "\n```".toList)) := rfl
    rw [hw]
    exact stripLeft_cons_nws _ _ (by decide)
  have h2 : stripRight (wrapJson d) = wrapJson d := by
    rw [wrapJson_split d]
    rw [show ("`".toList : List Char) = [backtickC] from rfl]
    exact stripRight_append_nws _ _ (by decide)
  unfold pyStrip
  rw [h1, h2]

theorem pyStrip_wrapBare (d : List Char) : pyStrip (wrapBare d) = wrapBare d := by
  have h1 : stripLeft (wrapBare d) = wrapBare d := by
    have hw : wrapBare d = backtickC :: ("``\n".toList ++ (d ++ "\n```".toList)) := rfl
    rw [hw]
    exact stripLeft_cons_nws _ _ (by decide)
  have h2 : stripRight (wrapBare d) = wrapBare d := by
    rw [wrapBare_split d]
    rw [show ("`".toList : List Char) = [backtickC] from rfl]
    exact stripRight_append_nws _ _ (by decide)
  unfold pyStrip
  rw [h1, h2]

theorem fence_tail_found (d : List Char) :
    ("```".toList).isSuffixOf ('\n' :: (d ++ "\n```".toList)) = true := by
  have hiff := @List.isSuffixOf_iff_suffix Char _ _ ("```".toList)
    ('\n' :: (d ++ "\n```".toList))
  rw [hiff]
  refine ⟨'\n' :: (d ++ "\n".toList), ?_⟩
  rw [List.cons_append, List.append_assoc]
  rfl

theorem fence_tail_take (d : List Char) :
    ('\n' :: (d ++ "\n```".toList)).take (('\n' :: (d ++ "\n```".toList)).length - 3) =
      '\n' :: (d ++ "\n".toList) := by
  have hsplit : '\n' :: (d ++ "\n```".toList) =
      ('\n' :: (d ++ "\n".toList)) ++ "```".toList := by
    rw [List.cons_append, List.append_assoc]
    rfl
  rw [hsplit]
  have hlen : (('\n' :: (d ++ "\n".toList)) ++ "```".toList).length =
      ('\n' :: (d ++ "\n".toList)).length + 3 := by
    rw [List.length_append]
    rfl
  rw [hlen, Nat.add_sub_cancel]
  exact List.take_left _ _

theorem pyStrip_nl_wrap (d : List Char) :
    pyStrip ('\n' :: (d ++ "\n".toList)) = pyStrip d := by
  rw [show ("\n".toList : List Char) = ['\n'] from rfl]
  rw [pyStrip_cons_ws '\n' _ (by decide), pyStrip_append_ws '\n' d (by decide)]

theorem cleanContent_wrapJson (d : List Char) :
    cleanContent (wrapJson d) = pyStrip d := by
  unfold cleanContent
  rw [pyStrip_wrapJson]
  have hpre : ("```json".toList).isPrefixOf (wrapJson d) = true := rfl
  have hdrop : (wrapJson d).drop 7 = '\n' :: (d ++ "\n```".toList) := rfl
  have hfence : stripFence (wrapJson d) = '\n' :: (d ++ "\n".toList) := by
    simp only [stripFence, hpre, hdrop, fence_tail_found d, if_true]
    exact fence_tail_take d
  rw [hfence]
  exact pyStrip_nl_wrap d

theorem cleanContent_wrapBare (d : List Char) :
    cleanContent (wrapBare d) = pyStrip d := by
  unfold cleanContent
  rw [pyStrip_wrapBare]
  have hpreJ : ("```json".toList).isPrefixOf (wrapBare d) = false := rfl
  have hpreB : ("```".toList).isPrefixOf (wrapBare d) = true := rfl
  have hdrop : (wrapBare d).drop 3 = '\n' :: (d ++ "\n```".toList) := rfl
  have hfence : stripFence (wrapBare d) = '\n' :: (d ++ "\n".toList) := by
    simp only [stripFence, hpreJ, hpreB, hdrop, fence_tail_found d, if_true,
      Bool.false_eq_true, if_false]
    exact fence_tail_take d
  rw [hfence]
  exact pyStrip_nl_wrap d

theorem cleanContent_no_fence (d : List Char)
    (hp : ("```".toList).isPrefixOf (pyStrip d) = false)
    (hs : ("```".toList).isSuffixOf (pyStrip d) = false) :
    cleanContent d = pyStrip d := by
  have hpj : ("```json".toList).isPrefixOf (pyStrip d) = false := by
    cases hcase : ("```json".toList).isPrefixOf (pyStrip d) with
    | false => rfl
    | true =>
      exfalso
      have hiffJ := @List.isPrefixOf_iff_prefix Char _ _ ("```json".toList) (pyStrip d)
      have hiffB := @List.isPrefixOf_iff_prefix Char _ _ ("```".toList) (pyStrip d)
      have hj := hiffJ.mp hcase
      have h3 : ("```".toList) <+: pyStrip d :=
        List.IsPrefix.trans ⟨"json".toList, rfl⟩ hj
      have h4 := hiffB.mpr h3
      rw [h4] at hp
      exact Bool.noConfusion hp
  simp only [cleanContent, stripFence, hpj, hp, hs, Bool.false_eq_true, if_false]
  exact pyStrip_idem d

/-! ## Claim C9 -/

/-- Claim C9, counterexample: the already-fenced document
`wrapBare sampleTaskDoc` is accepted by the interpreter (the one fence
layer is stripped), but the same document wrapped in a further fenced block
is rejected — stripping is one layer only, so fence-wrapping does not
preserve the result for every accepted document. -/
theorem interpret_fence_cx :
    parseAiResponse (wrapBare sampleTaskDoc) ("g".toList) = Except.ok sampleTaskBreakdown ∧
    parseAiResponse (wrapJson (wrapBare sampleTaskDoc)) ("g".toList) =
      Except.error PyErr.jsonDecodeError :=
  ⟨rfl, rfl⟩

/-- Claim C9 (amended): for every text whose stripped form neither begins
with a fence marker nor ends with one (true of every bare well-formed JSON
document), wrapping it in a fenced block — json-tagged or bare — does not
change the interpreter's result. -/
theorem interpret_fence_insensitive (d goal : List Char)
    (hp : ("```".toList).isPrefixOf (pyStrip d) = false)
    (hs : ("```".toList).isSuffixOf (pyStrip d) = false) :
    parseAiResponse (wrapJson d) goal = parseAiResponse d goal ∧
    parseAiResponse (wrapBare d) goal = parseAiResponse d goal := by
  have hnf := cleanContent_no_fence d hp hs
  constructor
  · unfold parseAiResponse
    rw [cleanContent_wrapJson, hnf]
  · unfold parseAiResponse
    rw [cleanContent_wrapBare, hnf]

/-- Claim C9, witness: wrapping the bare document `sampleTaskDoc` in either
fence style leaves the interpreter's result unchanged. -/
theorem interpret_fence_insensitive_witness :
    parseAiResponse (wrapJson sampleTaskDoc) ("g".toList) =
      parseAiResponse sampleTaskDoc ("g".toList) ∧
    parseAiResponse (wrapBare sampleTaskDoc) ("g".toList) =
      parseAiResponse sampleTaskDoc ("g".toList) :=
  interpret_fence_insensitive sampleTaskDoc ("g".toList) rfl rfl

end STP
